import Mathlib

/-!
Verification of `iinfo` (batch image reporter) and `IvImage` (viewer record)

Shallow embedding of `src/iinfo/iinfo.cpp` and of the inline members of
`IvImage` in `src/iv/imageviewer.h`.

Conventions of the embedding

* C `int` values are `Int`; the modelled code only reads and compares them.
  The `long long` accumulator `totalsize` is an `Int` kept in the 64-bit
  two's-complement range: every addition to it goes through `wrap64`.
* The `float` / `double` values computed by `iinfo` are held exactly, as
  `Binary` (an integer over a power of two).  The conversions integer ->
  float/double are `roundToSignificand` (round to nearest, ties to even);
  division by `1024.0` and `1024.0*1024.0` is exact in binary floating point.
  Float values that are only stored or handed to `%g` are rationals.
* Standard output is a `String`; the error stream is the list of messages
  written to it, one entry per output statement.
* Everything declared in `imageio.h` / `argparse.h` (not part of the
  sources at hand) is a parameter: see `Imageio`, `Probe`, `Parsed`.
-/

set_option autoImplicit false

/-! ## Data model -/

/-- Tag of a pixel data format (`ParamBaseType` of `imageio.h`). -/
abbrev ParamBaseType := Nat

/-- The values of `ImageSpec::linearity` that `print_info` distinguishes;
`UnknownLinearity` stands for every other value (the `default:` branch). -/
inductive Linearity where
  | Linear
  | GammaCorrected
  | sRGB
  | UnknownLinearity
deriving DecidableEq, Repr

/-- Payload of an `ImageIOParameter`, by its `type()`; `other` is every
type that `print_info` renders as `<unknown data type>`. -/
inductive ParamData where
  | PT_STRING (s : String)
  | PT_FLOAT (f : ℚ)
  | PT_INT (i : Int)
  | PT_UINT (u : Nat)
  | other
deriving DecidableEq

/-- One auxiliary attribute of a spec (`ImageIOParameter`). -/
structure ImageIOParameter where
  name : String
  data : ParamData
deriving DecidableEq

/-- The fields of `ImageSpec` read by `print_info` and `IvImage`. -/
structure ImageSpec where
  x : Int
  y : Int
  z : Int
  width : Int
  height : Int
  depth : Int
  full_width : Int
  full_height : Int
  full_depth : Int
  tile_width : Int
  tile_height : Int
  tile_depth : Int
  format : ParamBaseType
  nchannels : Int
  channelnames : List String
  linearity : Linearity
  gamma : ℚ
  extra_attribs : List ImageIOParameter
deriving DecidableEq

/-- Older name of `ImageSpec`, used by `imageviewer.h`. -/
abbrev ImageIOFormatSpec := ImageSpec

/-- What the sources use from `imageio.h` and from `printf`'s `%g`:
the format name, the byte sizes computed by `ImageSpec`, and the `%g`
rendering of a floating-point value. -/
structure Imageio where
  typestring : ParamBaseType → String
  image_bytes : ImageSpec → Int
  scanline_bytes : ImageSpec → Int
  fmt_g : ℚ → String

/-! ## `IvImage` (imageviewer.h) -/

/-- Private state of `IvImage`, field for field.  Pointers are addresses
(`0` is the null pointer). -/
structure IvImage where
  m_name : String
  m_nsubimages : Int
  m_current_subimage : Int
  m_spec : ImageIOFormatSpec
  m_pixels : Int
  m_thumbnail : Int
  m_spec_valid : Bool
  m_pixels_valid : Bool
  m_thumbnail_valid : Bool
  m_badfile : Bool
  m_err : String
  m_gamma : ℚ
  m_exposure : ℚ
deriving DecidableEq

namespace IvImage

/-- `std::string error_message (void)`: returns `m_err` and clears it. -/
def error_message (img : IvImage) : String × IvImage :=
  let e := img.m_err
  (e, { img with m_err := "" })

/-- `const ImageIOFormatSpec & spec () const`. -/
def spec (img : IvImage) : ImageIOFormatSpec := img.m_spec

/-- `void *scanline (int y)`: `m_pixels + y * m_spec.scanline_bytes()`, the
address of the first byte of row `y`.  The product is taken in the integers
(the result type of `scanline_bytes` is declared in `imageio.h`). -/
def scanline (io : Imageio) (img : IvImage) (y : Int) : Int :=
  img.m_pixels + y * io.scanline_bytes img.m_spec

/-- `const std::string & name (void) const`. -/
def name (img : IvImage) : String := img.m_name

/-- `float gamma (void) const`. -/
def gamma (img : IvImage) : ℚ := img.m_gamma

/-- `void gamma (float e)`. -/
def set_gamma (img : IvImage) (e : ℚ) : IvImage := { img with m_gamma := e }

/-- `float exposure (void) const`. -/
def exposure (img : IvImage) : ℚ := img.m_exposure

/-- `void exposure (float e)`. -/
def set_exposure (img : IvImage) (e : ℚ) : IvImage := { img with m_exposure := e }

end IvImage

/-- Result of streaming the pixels of an opened file through the decoder:
complete, failed with a message, or stopped early by the progress
callback. -/
inductive ReadOutcome where
  | complete
  | failed (msg : String)
  | cancelled
deriving DecidableEq

/-- The external decoder as seen by `IvImage`: for a path, the result of the
open/header call (spec and subimage count, or an error text), the address of
the buffer an allocation returns, and the result of streaming the pixels. -/
structure Decoder where
  openForRead : String → Except String (ImageSpec × Int)
  alloc : ImageSpec → Int
  readPixels : String → ReadOutcome

namespace IvImage

/-- Modelled from the spec: the body of `IvImage::init_spec`, which is only
declared in `imageviewer.h`.  Follows `ensureSpec`: a no-op when the spec is
valid or the record is broken; otherwise the decoder's open/header call, which
on success populates the spec, sets `specValid` and records the subimage
count, and on failure sets `broken` and stores the decoder's error text. -/
def init_spec (dec : Decoder) (img : IvImage) (filename : String) : Bool × IvImage :=
  if img.m_spec_valid then (true, img)
  else if img.m_badfile then (false, img)
  else
    match dec.openForRead filename with
    | .ok (s, n) => (true, { img with m_spec := s, m_spec_valid := true, m_nsubimages := n })
    | .error e => (false, { img with m_badfile := true, m_err := e })

/-- Modelled from the spec: the body of `IvImage::read`, which is only
declared in `imageviewer.h`.  Follows `ensurePixels`: a no-op when the pixels
are valid and `force` is off; a forced read first discards prior validity
(back to the state that knows only the name); then the spec is ensured
(failing fast), a buffer is allocated and the pixels are streamed; a read
error or a cancellation frees the buffer, leaves the pixels invalid and, for
an error, records the message; full success sets `pixelsValid`. -/
def read (dec : Decoder) (img : IvImage) (force : Bool) : Bool × IvImage :=
  if img.m_pixels_valid && !force then (true, img)
  else
    let fresh : IvImage :=
      if force then
        { img with m_spec_valid := false, m_pixels_valid := false, m_badfile := false }
      else img
    let (ok, known) := init_spec dec fresh fresh.m_name
    if !ok then (false, known)
    else
      let buf := { known with m_pixels := dec.alloc known.m_spec, m_pixels_valid := false }
      match dec.readPixels known.m_name with
      | .complete => (true, { buf with m_pixels_valid := true })
      | .failed msg => (false, { buf with m_pixels := 0, m_err := msg })
      | .cancelled => (false, { buf with m_pixels := 0 })

/-- The residency invariant of a record: valid pixels need a valid spec, and
a broken record has neither. -/
def Residency (img : IvImage) : Prop :=
  (img.m_pixels_valid = true → img.m_spec_valid = true) ∧
  (img.m_badfile = true → img.m_spec_valid = false ∧ img.m_pixels_valid = false)

instance (img : IvImage) : Decidable (Residency img) := by
  unfold Residency; infer_instance

/-- The operations of `IvImage` that act on an existing record. -/
inductive Op where
  | error_message
  | gamma (e : ℚ)
  | exposure (e : ℚ)
  | scanline (y : Int)
  | read (force : Bool)
  | init_spec (filename : String)

/-- The record after one operation (results of the calls are dropped). -/
def Op.run (io : Imageio) (dec : Decoder) (img : IvImage) : Op → IvImage
  | .error_message => (IvImage.error_message img).2
  | .gamma e => IvImage.set_gamma img e
  | .exposure e => IvImage.set_exposure img e
  | .scanline y => let _ := IvImage.scanline io img y; img
  | .read force => (IvImage.read dec img force).2
  | .init_spec filename => (IvImage.init_spec dec img filename).2

end IvImage

/-! ## Number rendering and conversion used by `iinfo` -/

/-- Largest value of `long long`. -/
def LLONG_MAX : Int := 2 ^ 63 - 1

/-- Smallest value of `long long`. -/
def LLONG_MIN : Int := -(2 ^ 63)

/-- The `long long` that holds `n` modulo 2^64 (two's complement): the result
of 64-bit arithmetic whose exact result is `n`. -/
def wrap64 (n : Int) : Int := (n + 2 ^ 63) % 2 ^ 64 - 2 ^ 63

/-- Number of binary digits of `n`, by halving; `fuel` bounds the halvings and
`bitLength n n` is the full count. -/
def bitLength : Nat → Nat → Nat
  | 0, _ => 0
  | fuel + 1, n => if n = 0 then 0 else bitLength fuel (n / 2) + 1

/-- Conversion of an integer to a binary floating-point format with `p`
significand bits (`p = 24` for `float`, `p = 53` for `double`): the nearest
representable value, ties to even.  The exponent range is not modelled (every
`long long` is far inside the range of both formats). -/
def roundToSignificand (p : Nat) (n : Int) : Int :=
  let a := n.natAbs
  if a < 2 ^ p then n
  else
    let e := bitLength a a - p
    let q := a / 2 ^ e
    let r := a % 2 ^ e
    let half := 2 ^ (e - 1)
    let q1 := if half < r ∨ (r = half ∧ q % 2 = 1) then q + 1 else q
    Int.sign n * ((q1 * 2 ^ e : Nat) : Int)

/-- A finite binary floating-point value, held exactly as
`num / 2 ^ shift`. -/
structure Binary where
  num : Int
  shift : Nat
deriving DecidableEq

namespace Binary

/-- The rational number a value denotes. -/
def toRat (b : Binary) : ℚ := (b.num : ℚ) / (2 : ℚ) ^ b.shift

/-- Division by the constant `2 ^ k` (`1024.0` is `2 ^ 10`, `1024.0*1024.0`
is `2 ^ 20`); exact in binary floating point. -/
def div_pow2 (b : Binary) (k : Nat) : Binary := { b with shift := b.shift + k }

/-- The comparison `b > c` against an integer constant `c`. -/
def gt_const (b : Binary) (c : Int) : Bool := decide (c * 2 ^ b.shift < b.num)

end Binary

/-- The cast `(float) n`. -/
def toFloat (n : Int) : Binary := { num := roundToSignificand 24 n, shift := 0 }

/-- The cast `(double) n`. -/
def toDouble (n : Int) : Binary := { num := roundToSignificand 53 n, shift := 0 }

/-- The conversion `%d`. -/
def fmt_d (i : Int) : String := toString i

/-- The conversion `%u`. -/
def fmt_u (u : Nat) : String := toString u

/-- The conversion `%4d`: `%d` padded with blanks on the left to width 4. -/
def fmt_4d (i : Int) : String :=
  let s := fmt_d i
  String.mk (List.replicate (4 - s.length) ' ') ++ s

/-- The conversion `%.2f`: two decimals, rounded to nearest with ties to
even on the exact value. -/
def fmt_2f (b : Binary) : String :=
  let scaled := b.num.natAbs * 100
  let d := 2 ^ b.shift
  let fl := scaled / d
  let r := scaled % d
  let n := if d < 2 * r ∨ (2 * r = d ∧ fl % 2 = 1) then fl + 1 else fl
  (if b.num < 0 then "-" else "") ++ toString (n / 100) ++ "."
    ++ (if n % 100 < 10 then "0" else "") ++ toString (n % 100)

/-! ## `iinfo` (iinfo.cpp) -/

namespace iinfo

/-- The channel loop of `print_info`:
`for (int i = 0; i < spec.nchannels; ++i) printf ("%s%s", ...)`, started at
`i` with `out` already printed.  `fuel` bounds the iterations; the loop is run
with `spec.nchannels.toNat`, which is the number of iterations it makes. -/
def channel_loop (spec : ImageSpec) : Nat → Int → String → String
  | 0, _, out => out
  | fuel + 1, i, out =>
    if i < spec.nchannels then
      channel_loop spec fuel (i + 1)
        (out ++ spec.channelnames.getD i.toNat ""
          ++ (if i = spec.nchannels - 1 then "" else ", "))
    else out

/-- The attribute loop of `print_info` (`BOOST_FOREACH` over
`spec.extra_attribs`), appended to `out`. -/
def attrib_loop (io : Imageio) : List ImageIOParameter → String → String
  | [], out => out
  | p :: ps, out =>
    let out := out ++ "    " ++ p.name ++ ": "
    let out :=
      match p.data with
      | .PT_STRING s => out ++ "\"" ++ s ++ "\""
      | .PT_FLOAT f => out ++ io.fmt_g f
      | .PT_INT i => out ++ fmt_d i
      | .PT_UINT u => out ++ fmt_u u
      | .other => out ++ "<unknown data type>"
    attrib_loop io ps (out ++ "\n")

/-- Lines 73-78 of `print_info`: the origin, appended to `out`.  In
`printf (", z=%d\n", spec.x, spec.y, spec.z)` the single `%d` takes the first
argument after the format, `spec.x`. -/
def origin_block (spec : ImageSpec) (out : String) : String :=
  if spec.x ≠ 0 ∨ spec.y ≠ 0 ∨ spec.z ≠ 0 then
    let out := out ++ "    origin: x=" ++ fmt_d spec.x ++ ", y=" ++ fmt_d spec.y
    let out := if spec.depth > 1 then out ++ ", z=" ++ fmt_d spec.x ++ "\n" else out
    out ++ "\n"
  else out

/-- Lines 79-120 of `print_info`: full size, tile size, color space and
attributes, appended to `out`. -/
def verbose_tail (io : Imageio) (spec : ImageSpec) (out : String) : String :=
  let out :=
    if spec.full_width ≠ spec.width ∨ spec.full_height ≠ spec.height ∨
        spec.full_depth ≠ spec.depth then
      let out := out ++ "    full (uncropped) size: " ++ fmt_4d spec.full_width
        ++ " x " ++ fmt_d spec.full_height
      let out := if spec.depth > 1 then out ++ " x " ++ fmt_d spec.full_depth else out
      out ++ "\n"
    else out
  let out :=
    if spec.tile_width ≠ 0 then
      let out := out ++ "    tile size: " ++ fmt_d spec.tile_width
        ++ " x " ++ fmt_d spec.tile_height
      let out := if spec.depth > 1 then out ++ " x " ++ fmt_d spec.tile_depth else out
      out ++ "\n"
    else out
  let out :=
    match spec.linearity with
    | .Linear => out ++ "    linear color space\n"
    | .GammaCorrected => out ++ "    gamma-corrected: " ++ io.fmt_g spec.gamma ++ "\n"
    | .sRGB => out ++ "    sRGB color space\n"
    | .UnknownLinearity => out ++ "    unknown color space\n"
  attrib_loop io spec.extra_attribs out

/-- `print_info`: the text written to standard output and the new value of
`totalsize` (a `long long`, so `totalsize += spec.image_bytes()` is taken
modulo 2^64), statement by statement. -/
def print_info (io : Imageio) (filename : String) (spec : ImageSpec)
    (verbose sum : Bool) (totalsize : Int) : String × Int :=
  let out := filename ++ " : " ++ fmt_4d spec.width ++ " x " ++ fmt_4d spec.height
  let out := if spec.depth > 1 then out ++ " x " ++ fmt_4d spec.depth else out
  let out := out ++ ", " ++ fmt_d spec.nchannels ++ " channel, " ++ io.typestring spec.format
    ++ (if spec.depth > 1 then " volume" else "")
  let (out, totalsize) :=
    if sum then
      (out ++ " (" ++ fmt_2f ((toFloat (io.image_bytes spec)).div_pow2 20) ++ " MB)",
       wrap64 (totalsize + io.image_bytes spec))
    else (out, totalsize)
  let out := out ++ "\n"
  if verbose then
    let out := out ++ "    channel list: "
    let out := channel_loop spec spec.nchannels.toNat 0 out
    let out := out ++ "\n"
    let out := origin_block spec out
    (verbose_tail io spec out, totalsize)
  else (out, totalsize)

/-- Outcome of `ap.parse` (class `ArgParse`, `argparse.h`): its return value,
the text of `ap.error_message()`, the text `ap.usage()` prints, and the
values it stored in `help`, `verbose`, `sum` and `filenames`. -/
structure Parsed where
  status : Int
  error_message : String
  usage : String
  help : Bool
  verbose : Bool
  sum : Bool
  filenames : List String

/-- What the image library does with one path: `ImageInput::create` returns
null (with the text of `OpenImageIO::error_message()`), or it returns a
decoder whose `open` fails (with the text of `in->error_message()`), or
`open` succeeds and fills the spec.  `pixels_decode` records whether reading
the pixels of the opened file would succeed. -/
inductive Probe where
  | no_plugin (err : String)
  | open_fails (err : String)
  | opens (spec : ImageSpec) (pixels_decode : Bool)

/-- Observable state of a run: standard output, the messages on the error
stream, and the local `totalsize`. -/
structure Streams where
  stdout : String
  stderr : List String
  totalsize : Int
deriving DecidableEq

/-- The body of the `BOOST_FOREACH` loop of `main` for one file name. -/
def process_file (io : Imageio) (files : String → Probe) (verbose sum : Bool)
    (st : Streams) (s : String) : Streams :=
  match files s with
  | .no_plugin err => { st with stderr := st.stderr ++ [err ++ "\n"] }
  | .opens spec _ =>
    let (text, total) := print_info io s spec verbose sum st.totalsize
    { st with stdout := st.stdout ++ text, totalsize := total }
  | .open_fails err =>
    { st with stderr := st.stderr ++
        ["iinfo: Could not open \"" ++ s ++ "\" : " ++ err ++ "\n"] }

/-- The `BOOST_FOREACH` loop of `main` over `filenames`. -/
def process_files (io : Imageio) (files : String → Probe) (verbose sum : Bool) :
    Streams → List String → Streams
  | st, [] => st
  | st, s :: rest =>
    process_files io files verbose sum (process_file io files verbose sum st s) rest

/-- The total-size statement at the end of `main`, for `sum == true`. -/
def total_line (totalsize : Int) : String :=
  let t := (toDouble totalsize).div_pow2 20
  if t.gt_const 1024 then "Total size: " ++ fmt_2f (t.div_pow2 10) ++ " GB\n"
  else "Total size: " ++ fmt_2f t ++ " MB\n"

/-- Value of `EXIT_FAILURE`. -/
def EXIT_FAILURE : Int := 1

/-- A finished run of `main`: the streams and the exit status. -/
structure Run where
  streams : Streams
  status : Int
deriving DecidableEq

/-- The function `main`, after `ap.parse` has returned `p`. -/
def main (io : Imageio) (files : String → Probe) (p : Parsed) : Run :=
  let st : Streams := { stdout := "", stderr := [], totalsize := 0 }
  if p.status < 0 then
    { streams := { st with stderr := [p.error_message ++ "\n"], stdout := p.usage },
      status := EXIT_FAILURE }
  else if p.help then
    { streams := { st with stdout := p.usage }, status := EXIT_FAILURE }
  else
    let st := process_files io files p.verbose p.sum st p.filenames
    let st := if p.sum then { st with stdout := st.stdout ++ total_line st.totalsize } else st
    { streams := st, status := 0 }

end iinfo

/-- The spec that `open` fills for `s`, when `ImageInput::create` and `open`
both succeed for it; `none` for a file that fails either step. -/
def iinfo.opened (files : String → iinfo.Probe) (s : String) : Option ImageSpec :=
  match files s with
  | .opens spec _ => some spec
  | _ => none

/-! ## Sample inputs

Concrete instances of the parameters, used to evaluate the definitions. -/

/-- Modelled from the spec: `ImageSpec::image_bytes`, declared in `imageio.h`
(not among the sources): width x height x depth x bytes-per-pixel, where
bytes-per-pixel is channel-count x format size. -/
def spec_image_bytes (typesize : ParamBaseType → Int) (s : ImageSpec) : Int :=
  s.width * s.height * s.depth * (s.nchannels * typesize s.format)

/-- Modelled from the spec: `ImageSpec::scanline_bytes`, declared in
`imageio.h` (not among the sources): width x bytes-per-pixel. -/
def spec_scanline_bytes (typesize : ParamBaseType → Int) (s : ImageSpec) : Int :=
  s.width * (s.nchannels * typesize s.format)

/-- A sample library: format tag 0 is a one-byte format named `uint8`, every
other tag a four-byte format named `float`; `%g` is not rendered. -/
def sampleLib : Imageio where
  typestring := fun t => if t = 0 then "uint8" else "float"
  image_bytes := spec_image_bytes (fun t => if t = 0 then 1 else 4)
  scanline_bytes := spec_scanline_bytes (fun t => if t = 0 then 1 else 4)
  fmt_g := fun _ => "<%g>"

/-- A plain spec of the given size and channel names: one-byte format, zero
origin, not cropped, not tiled, linear, no attributes. -/
def plainSpec (width height depth : Int) (channelnames : List String) : ImageSpec where
  x := 0
  y := 0
  z := 0
  width := width
  height := height
  depth := depth
  full_width := width
  full_height := height
  full_depth := depth
  tile_width := 0
  tile_height := 0
  tile_depth := 0
  format := 0
  nchannels := channelnames.length
  channelnames := channelnames
  linearity := .Linear
  gamma := 1
  extra_attribs := []

/-- A record holding `spec` at buffer address `m_pixels`, pixels valid. -/
def residentImage (spec : ImageSpec) (m_pixels : Int) : IvImage where
  m_name := "a.tif"
  m_nsubimages := 1
  m_current_subimage := 0
  m_spec := spec
  m_pixels := m_pixels
  m_thumbnail := 0
  m_spec_valid := true
  m_pixels_valid := true
  m_thumbnail_valid := false
  m_badfile := false
  m_err := ""
  m_gamma := 1
  m_exposure := 0

/-- A decoder for which every open fails with the message `no such file`. -/
def failingDecoder : Decoder where
  openForRead := fun _ => .error "no such file"
  alloc := fun _ => 4096
  readPixels := fun _ => .failed "read error"

/-- The three-file scenario: `A.tif` opens and decodes (64 x 64, 3 channels),
`B.tif` cannot be opened, `C.tif` opens (1024 x 1024, 1 channel) but its pixels do
not decode. -/
def scenarioFiles : String → iinfo.Probe := fun s =>
  if s = "A.tif" then .opens (plainSpec 64 64 1 ["R", "G", "B"]) true
  else if s = "C.tif" then .opens (plainSpec 1024 1024 1 ["Y"]) false
  else .open_fails "No such file or directory"

/-- The arguments `-s A.tif B.tif C.tif`, parsed. -/
def scenarioArgs : iinfo.Parsed where
  status := 0
  error_message := ""
  usage := "Usage:  iinfo [options] filename...\n"
  help := false
  verbose := false
  sum := true
  filenames := ["A.tif", "B.tif", "C.tif"]

/-! ## Theorems: `IvImage` -/

/-- C1: `IvImage::error_message` is read-and-clear.  For every record the call
returns exactly the stored message and leaves the stored message empty, a
second call right after it returns the empty string, and no other field of
the record is changed. -/
theorem IvImage.error_message_read_and_clear (img : IvImage) :
    (IvImage.error_message img).1 = img.m_err ∧
    (IvImage.error_message img).2.m_err = "" ∧
    (IvImage.error_message (IvImage.error_message img).2).1 = "" ∧
    (IvImage.error_message img).2 = { img with m_err := "" } ∧
    (IvImage.error_message img).2.m_name = img.m_name ∧
    (IvImage.error_message img).2.m_spec = img.m_spec ∧
    (IvImage.error_message img).2.m_spec_valid = img.m_spec_valid ∧
    (IvImage.error_message img).2.m_pixels_valid = img.m_pixels_valid ∧
    (IvImage.error_message img).2.m_thumbnail_valid = img.m_thumbnail_valid ∧
    (IvImage.error_message img).2.m_badfile = img.m_badfile ∧
    (IvImage.error_message img).2.m_gamma = img.m_gamma ∧
    (IvImage.error_message img).2.m_exposure = img.m_exposure := by
  simp [IvImage.error_message]

theorem IvImage.init_spec_residency (dec : Decoder) (img : IvImage) (filename : String)
    (h : IvImage.Residency img) : IvImage.Residency (IvImage.init_spec dec img filename).2 := by
  obtain ⟨h1, h2⟩ := h
  unfold IvImage.init_spec
  by_cases hs : img.m_spec_valid = true
  · simp only [hs, if_true]; exact ⟨h1, h2⟩
  · by_cases hb : img.m_badfile = true
    · simp only [hs, hb, if_true]; exact ⟨h1, h2⟩
    · simp only [hs, hb]
      have hp : img.m_pixels_valid = false := by
        cases hpv : img.m_pixels_valid
        · rfl
        · exact absurd (h1 hpv) hs
      cases hopen : dec.openForRead filename with
      | ok v =>
        obtain ⟨s, n⟩ := v
        simp_all [IvImage.Residency]
      | error e =>
        simp_all [IvImage.Residency]

theorem IvImage.init_spec_ok (dec : Decoder) (img : IvImage) (filename : String)
    (hok : (IvImage.init_spec dec img filename).1 = true) :
    (IvImage.init_spec dec img filename).2.m_spec_valid = true := by
  unfold IvImage.init_spec at hok ⊢
  by_cases hs : img.m_spec_valid = true
  · simp_all
  · by_cases hb : img.m_badfile = true
    · simp_all
    · cases hopen : dec.openForRead filename with
      | ok v => obtain ⟨s, n⟩ := v; simp_all
      | error e => simp_all

theorem IvImage.read_residency (dec : Decoder) (img : IvImage) (force : Bool)
    (h : IvImage.Residency img) : IvImage.Residency (IvImage.read dec img force).2 := by
  unfold IvImage.read
  by_cases hskip : (img.m_pixels_valid && !force) = true
  · simp only [hskip, if_true]; exact h
  · simp only [hskip]
    generalize hfresh : (if force = true then
        { img with m_spec_valid := false, m_pixels_valid := false, m_badfile := false }
      else img) = fresh
    have hfr : IvImage.Residency fresh := by
      subst hfresh
      cases force
      · simpa using h
      · simp [IvImage.Residency]
    have hres := IvImage.init_spec_residency dec fresh fresh.m_name hfr
    have hok := IvImage.init_spec_ok dec fresh fresh.m_name
    generalize IvImage.init_spec dec fresh fresh.m_name = res at hres hok
    obtain ⟨ok, known⟩ := res
    cases ok
    · simpa using hres
    · have hsv : known.m_spec_valid = true := hok rfl
      obtain ⟨_, hk2⟩ := hres
      have hnb : known.m_badfile = false := by
        cases hb : known.m_badfile
        · rfl
        · have := (hk2 hb).1
          simp_all
      cases dec.readPixels known.m_name <;> simp [IvImage.Residency, hsv, hnb]

/-- C2: every operation of `IvImage` (error_message, the gamma and exposure
setters, scanline, read, init_spec) maps a record that satisfies the residency
invariant `pixelsValid => specValid`, `broken => not specValid and not
pixelsValid` to a record that satisfies it. -/
theorem IvImage.residency_preserved (io : Imageio) (dec : Decoder) (img : IvImage)
    (op : IvImage.Op) (h : IvImage.Residency img) :
    IvImage.Residency (IvImage.Op.run io dec img op) := by
  cases op with
  | error_message => exact h
  | gamma e => exact h
  | exposure e => exact h
  | scanline y => exact h
  | read force => exact IvImage.read_residency dec img force h
  | init_spec filename => exact IvImage.init_spec_residency dec img filename h

/-- Witness of C2: a forced read of a resident image through a decoder whose
open fails leaves a record that satisfies the invariant. -/
theorem IvImage.residency_preserved_witness :
    IvImage.Residency (residentImage (plainSpec 4 4 1 ["Y"]) 4096) ∧
    IvImage.Residency (IvImage.Op.run sampleLib failingDecoder
      (residentImage (plainSpec 4 4 1 ["Y"]) 4096) (.read true)) :=
  ⟨by decide, IvImage.residency_preserved sampleLib failingDecoder
      (residentImage (plainSpec 4 4 1 ["Y"]) 4096) (.read true) (by decide)⟩

/-- Counterexample to C9 as stated: a 1 x 1 record of depth 0 with one byte
per pixel satisfies the premises (buffer size 1*1*0*1 = 0, scanline_bytes
1*1 = 1, row 0 in range), yet row 0 returned by `scanline` ends one byte past
the end of its buffer. -/
theorem IvImage.scanline_depth_zero_row_outside :
    sampleLib.scanline_bytes (residentImage (plainSpec 1 1 0 ["Y"]) 4096).m_spec
      = (plainSpec 1 1 0 ["Y"]).width * 1 ∧
    ((0 : Nat) : Int) = (plainSpec 1 1 0 ["Y"]).width * (plainSpec 1 1 0 ["Y"]).height
      * (plainSpec 1 1 0 ["Y"]).depth * 1 ∧
    (0 : Int) < (plainSpec 1 1 0 ["Y"]).height ∧
    ¬ (IvImage.scanline sampleLib (residentImage (plainSpec 1 1 0 ["Y"]) 4096) 0
        + sampleLib.scanline_bytes (residentImage (plainSpec 1 1 0 ["Y"]) 4096).m_spec
        ≤ (residentImage (plainSpec 1 1 0 ["Y"]) 4096).m_pixels + ((0 : Nat) : Int)) := by
  decide

/-- C9 (amended): for a record of depth at least 1 whose buffer has `size` =
width x height x depth x bytes-per-pixel bytes and whose scanline_bytes is
width x bytes-per-pixel, for every row `y` with `0 <= y < height`:
`scanline y` is byte offset `y * scanline_bytes` from the buffer start, the
row `[offset, offset + scanline_bytes)` lies inside the buffer, and the rows
of two distinct `y` do not overlap. -/
theorem IvImage.scanline_row_in_buffer (io : Imageio) (img : IvImage) (bpp : Int)
    (size : Nat)
    (hsb : io.scanline_bytes img.m_spec = img.m_spec.width * bpp)
    (hsize : (size : Int) =
      img.m_spec.width * img.m_spec.height * img.m_spec.depth * bpp)
    (hdepth : 1 ≤ img.m_spec.depth)
    (y : Int) (hy0 : 0 ≤ y) (hy : y < img.m_spec.height) :
    IvImage.scanline io img y
      = img.m_pixels + y * io.scanline_bytes img.m_spec ∧
    img.m_pixels ≤ IvImage.scanline io img y ∧
    IvImage.scanline io img y + io.scanline_bytes img.m_spec
      ≤ img.m_pixels + (size : Int) ∧
    ∀ y2 : Int, 0 ≤ y2 → y2 < img.m_spec.height → y2 ≠ y →
      IvImage.scanline io img y + io.scanline_bytes img.m_spec
          ≤ IvImage.scanline io img y2 ∨
        IvImage.scanline io img y2 + io.scanline_bytes img.m_spec
          ≤ IvImage.scanline io img y := by
  unfold IvImage.scanline
  generalize io.scanline_bytes img.m_spec = sb at hsb ⊢
  generalize img.m_spec.height = h at hsize hy ⊢
  generalize img.m_spec.depth = d at hsize hdepth ⊢
  have hsize2 : (size : Int) = sb * (h * d) := by rw [hsize, hsb]; ring
  clear hsize
  have hh : 1 ≤ h := by omega
  have hhd : 1 ≤ h * d := by nlinarith
  have hsz : (0 : Int) ≤ sb * (h * d) := by
    have : (0 : Int) ≤ (size : Int) := Int.ofNat_nonneg size
    rw [hsize2] at this
    exact this
  have hsb0 : 0 ≤ sb := by
    by_contra hneg
    push_neg at hneg
    nlinarith
  have hrow : (y + 1) * sb ≤ h * sb := by
    apply mul_le_mul_of_nonneg_right _ hsb0
    omega
  have hall : h * sb ≤ sb * (h * d) := by nlinarith
  have hy_nonneg : 0 ≤ y * sb := mul_nonneg hy0 hsb0
  refine ⟨rfl, by linarith, ?_, ?_⟩
  · rw [hsize2]; nlinarith
  · intro y2 _ _ hne
    rcases lt_or_gt_of_ne hne with hlt | hgt
    · right
      have : (y2 + 1) * sb ≤ y * sb := by
        apply mul_le_mul_of_nonneg_right _ hsb0
        omega
      nlinarith
    · left
      have : (y + 1) * sb ≤ y2 * sb := by
        apply mul_le_mul_of_nonneg_right _ hsb0
        omega
      nlinarith

/-- Witness of C9 (amended): row 2 of a 4 x 3 x 1 single-channel one-byte
record with a 12-byte buffer. -/
theorem IvImage.scanline_row_in_buffer_witness :
    IvImage.scanline sampleLib (residentImage (plainSpec 4 3 1 ["Y"]) 4096) 2 = 4104 ∧
    (IvImage.scanline sampleLib (residentImage (plainSpec 4 3 1 ["Y"]) 4096) 2
      = (residentImage (plainSpec 4 3 1 ["Y"]) 4096).m_pixels
        + 2 * sampleLib.scanline_bytes (residentImage (plainSpec 4 3 1 ["Y"]) 4096).m_spec ∧
    (residentImage (plainSpec 4 3 1 ["Y"]) 4096).m_pixels
      ≤ IvImage.scanline sampleLib (residentImage (plainSpec 4 3 1 ["Y"]) 4096) 2 ∧
    IvImage.scanline sampleLib (residentImage (plainSpec 4 3 1 ["Y"]) 4096) 2
        + sampleLib.scanline_bytes (residentImage (plainSpec 4 3 1 ["Y"]) 4096).m_spec
      ≤ (residentImage (plainSpec 4 3 1 ["Y"]) 4096).m_pixels + ((12 : Nat) : Int) ∧
    ∀ y2 : Int, 0 ≤ y2 → y2 < (residentImage (plainSpec 4 3 1 ["Y"]) 4096).m_spec.height →
      y2 ≠ 2 →
      IvImage.scanline sampleLib (residentImage (plainSpec 4 3 1 ["Y"]) 4096) 2
            + sampleLib.scanline_bytes (residentImage (plainSpec 4 3 1 ["Y"]) 4096).m_spec
          ≤ IvImage.scanline sampleLib (residentImage (plainSpec 4 3 1 ["Y"]) 4096) y2 ∨
        IvImage.scanline sampleLib (residentImage (plainSpec 4 3 1 ["Y"]) 4096) y2
            + sampleLib.scanline_bytes (residentImage (plainSpec 4 3 1 ["Y"]) 4096).m_spec
          ≤ IvImage.scanline sampleLib (residentImage (plainSpec 4 3 1 ["Y"]) 4096) 2) :=
  ⟨by decide,
   IvImage.scanline_row_in_buffer sampleLib (residentImage (plainSpec 4 3 1 ["Y"]) 4096) 1 12
     (by decide) (by decide) (by decide) 2 (by decide) (by decide)⟩

/-! ## Theorems: `long long` arithmetic -/

theorem wrap64_of_range (n : Int) (hlo : LLONG_MIN ≤ n) (hhi : n ≤ LLONG_MAX) :
    wrap64 n = n := by
  simp only [wrap64, LLONG_MIN, LLONG_MAX] at *
  norm_num at *
  omega

theorem wrap64_add_wrap64 (a b : Int) : wrap64 (wrap64 a + b) = wrap64 (a + b) := by
  simp only [wrap64]
  norm_num
  omega

theorem wrap64_foldl (l : List Int) (a : Int) :
    List.foldl (fun t x => wrap64 (t + x)) (wrap64 a) l = wrap64 (a + l.sum) := by
  induction l generalizing a with
  | nil => simp
  | cons x l ih =>
    simp only [List.foldl_cons, List.sum_cons]
    rw [wrap64_add_wrap64, ih, add_assoc]

theorem wrap64_foldl_zero (l : List Int) :
    List.foldl (fun t x => wrap64 (t + x)) 0 l = wrap64 l.sum := by
  have h := wrap64_foldl l 0
  have h0 : wrap64 0 = 0 := by decide
  rw [h0, zero_add] at h
  exact h

/-! ## Theorems: conversion to floating point -/

theorem roundToSignificand_of_lt (p : Nat) (n : Int) (h : n.natAbs < 2 ^ p) :
    roundToSignificand p n = n := by
  simp [roundToSignificand, h]

theorem bitLength_bounds (fuel n : Nat) (h : n ≤ fuel) (hn : n ≠ 0) :
    2 ^ (bitLength fuel n - 1) ≤ n ∧ n < 2 ^ bitLength fuel n := by
  induction fuel generalizing n with
  | zero => omega
  | succ k ih =>
    simp only [bitLength, hn, if_false]
    by_cases h2 : n / 2 = 0
    · have h1 : n = 1 := by omega
      subst h1
      cases k <;> simp [bitLength]
    · obtain ⟨l, u⟩ := ih (n / 2) (by omega) h2
      have hk : bitLength k (n / 2) ≠ 0 := by
        cases k with
        | zero => omega
        | succ k => simp [bitLength, h2]
      obtain ⟨m, hm⟩ := Nat.exists_eq_succ_of_ne_zero hk
      rw [hm] at l u ⊢
      simp only [Nat.succ_eq_add_one, Nat.add_sub_cancel] at l u ⊢
      have e1 : 2 ^ (m + 1) = 2 ^ m * 2 := by rw [Nat.pow_succ]
      have e2 : 2 ^ (m + 1 + 1) = 2 ^ m * 2 * 2 := by rw [Nat.pow_succ, Nat.pow_succ]
      rw [e1] at u ⊢
      rw [e2]
      constructor <;> omega

theorem roundToSignificand_large_pos (p : Nat) (hp : 1 ≤ p) (n : Int) (hn : 0 < n)
    (h : 2 ^ p ≤ n.natAbs) : (2 : Int) ^ (p - 1) ≤ roundToSignificand p n := by
  have ha : n.natAbs ≠ 0 := by
    have : 0 < 2 ^ p := Nat.pow_pos (by norm_num)
    omega
  obtain ⟨hlow, hup⟩ := bitLength_bounds n.natAbs n.natAbs (Nat.le_refl _) ha
  have hlog : p < bitLength n.natAbs n.natAbs := by
    by_contra hcon
    have : 2 ^ bitLength n.natAbs n.natAbs ≤ 2 ^ p :=
      Nat.pow_le_pow_right (by norm_num) (not_lt.mp hcon)
    omega
  have hpow : 2 ^ (p - 1) * 2 ^ (bitLength n.natAbs n.natAbs - p) ≤ n.natAbs := by
    rw [← Nat.pow_add]
    have : p - 1 + (bitLength n.natAbs n.natAbs - p) = bitLength n.natAbs n.natAbs - 1 := by
      omega
    rw [this]
    exact hlow
  have hpos : 0 < 2 ^ (bitLength n.natAbs n.natAbs - p) := Nat.pow_pos (by norm_num)
  have hq : 2 ^ (p - 1) ≤ n.natAbs / 2 ^ (bitLength n.natAbs n.natAbs - p) :=
    (Nat.le_div_iff_mul_le hpos).2 hpow
  have hsign : Int.sign n = 1 := Int.sign_eq_one_of_pos hn
  unfold roundToSignificand
  simp only [not_lt.mpr h, if_false, hsign, one_mul]
  have key : ∀ q1 : Nat, n.natAbs / 2 ^ (bitLength n.natAbs n.natAbs - p) ≤ q1 →
      (2 : Int) ^ (p - 1) ≤ ((q1 * 2 ^ (bitLength n.natAbs n.natAbs - p) : Nat) : Int) := by
    intro q1 hq1
    have h1 : 2 ^ (p - 1) ≤ q1 * 2 ^ (bitLength n.natAbs n.natAbs - p) :=
      calc 2 ^ (p - 1) ≤ q1 := le_trans hq hq1
        _ = q1 * 1 := (Nat.mul_one q1).symm
        _ ≤ q1 * 2 ^ (bitLength n.natAbs n.natAbs - p) := Nat.mul_le_mul_left q1 hpos
    exact_mod_cast h1
  split_ifs
  · exact key _ (Nat.le_succ _)
  · exact key _ (Nat.le_refl _)

theorem roundToSignificand_large_neg (p : Nat) (n : Int) (hn : n < 0) :
    roundToSignificand p n ≤ 0 := by
  unfold roundToSignificand
  by_cases h : n.natAbs < 2 ^ p
  · simp only [h, if_true]; omega
  · simp only [h, if_false, Int.sign_eq_neg_one_of_neg hn]
    have : ∀ m : Nat, (-1 : Int) * (m : Int) ≤ 0 := by intro m; omega
    exact this _

theorem toDouble_gt_two_pow_30 (n : Int) :
    (2 : Int) ^ 30 < roundToSignificand 53 n ↔ (2 : Int) ^ 30 < n := by
  by_cases h : n.natAbs < 2 ^ 53
  · rw [roundToSignificand_of_lt 53 n h]
  · have h53 : 2 ^ 53 ≤ n.natAbs := not_lt.mp h
    rcases lt_trichotomy n 0 with hneg | hzero | hpos
    · have := roundToSignificand_large_neg 53 n hneg
      constructor
      · intro h1; norm_num at h1; omega
      · intro h1; norm_num at h1; omega
    · subst hzero; simp at h53
    · have := roundToSignificand_large_pos 53 (by norm_num) n hpos h53
      constructor
      · intro _
        have : (n.natAbs : Int) = n := Int.natAbs_of_nonneg hpos.le
        norm_num at h53 ⊢
        omega
      · intro _
        norm_num at this ⊢
        omega

theorem iinfo.total_line_eq (n : Int) :
    iinfo.total_line n =
      if (2 : Int) ^ 30 < n then
        "Total size: " ++ fmt_2f (((toDouble n).div_pow2 20).div_pow2 10) ++ " GB\n"
      else "Total size: " ++ fmt_2f ((toDouble n).div_pow2 20) ++ " MB\n" := by
  have hiff := toDouble_gt_two_pow_30 n
  have hg : ((toDouble n).div_pow2 20).gt_const 1024 = decide ((2 : Int) ^ 30 < n) := by
    simp only [Binary.gt_const, Binary.div_pow2, toDouble]
    have h30 : (1024 : Int) * 2 ^ (0 + 20) = 2 ^ 30 := by norm_num
    apply decide_eq_decide.mpr
    rw [h30]
    exact hiff
  unfold iinfo.total_line
  simp only [hg, decide_eq_true_eq]

/-! ## Theorems: `print_info` -/

theorem iinfo.channel_loop_append (spec : ImageSpec) (fuel : Nat) (i : Int) (out : String) :
    iinfo.channel_loop spec fuel i out = out ++ iinfo.channel_loop spec fuel i "" := by
  induction fuel generalizing i out with
  | zero => simp [iinfo.channel_loop]
  | succ k ih =>
    unfold iinfo.channel_loop
    by_cases hi : i < spec.nchannels
    · simp only [hi, if_true]
      rw [ih (i + 1) (out ++ _ ++ _), ih (i + 1) ("" ++ _ ++ _)]
      simp only [String.append_assoc, String.append_empty, String.empty_append]
    · simp [hi]

/-- The channel loop stops at its own test `i < spec.nchannels`: any fuel
of at least `spec.nchannels - i` gives the result of exactly that much. -/
theorem iinfo.channel_loop_fuel (spec : ImageSpec) (fuel : Nat) (i : Int) (out : String)
    (h : (spec.nchannels - i).toNat ≤ fuel) :
    iinfo.channel_loop spec fuel i out
      = iinfo.channel_loop spec (spec.nchannels - i).toNat i out := by
  induction fuel generalizing i out with
  | zero =>
    have h0 : (spec.nchannels - i).toNat = 0 := Nat.le_zero.mp h
    rw [h0]
  | succ k ih =>
    by_cases hi : i < spec.nchannels
    · have hstep : (spec.nchannels - i).toNat = (spec.nchannels - (i + 1)).toNat + 1 := by
        omega
      rw [hstep]
      simp only [iinfo.channel_loop, hi, if_true]
      apply ih
      omega
    · have h0 : (spec.nchannels - i).toNat = 0 := by omega
      rw [h0]
      simp [iinfo.channel_loop, hi]

theorem iinfo.attrib_loop_append (io : Imageio) (ps : List ImageIOParameter) (out : String) :
    iinfo.attrib_loop io ps out = out ++ iinfo.attrib_loop io ps "" := by
  induction ps generalizing out with
  | nil => simp [iinfo.attrib_loop]
  | cons p ps ih =>
    obtain ⟨nm, data⟩ := p
    cases data <;>
    · simp only [iinfo.attrib_loop]
      conv_lhs => rw [ih]
      conv_rhs => rw [ih]
      simp only [String.append_assoc, String.append_empty, String.empty_append]

theorem iinfo.origin_block_append (spec : ImageSpec) (out : String) :
    iinfo.origin_block spec out = out ++ iinfo.origin_block spec "" := by
  unfold iinfo.origin_block
  split_ifs <;> simp only [String.append_assoc, String.append_empty, String.empty_append]

theorem iinfo.verbose_tail_append (io : Imageio) (spec : ImageSpec) (out : String) :
    iinfo.verbose_tail io spec out = out ++ iinfo.verbose_tail io spec "" := by
  unfold iinfo.verbose_tail
  simp only []
  conv_lhs => rw [iinfo.attrib_loop_append]
  conv_rhs => rw [iinfo.attrib_loop_append]
  cases spec.linearity <;> split_ifs <;> simp only [String.append_assoc, String.append_empty, String.empty_append]

/-- The text `print_info` writes: the info line, and in verbose mode the
channel list, the origin and the remaining verbose lines. -/
theorem iinfo.print_info_text (io : Imageio) (filename : String) (spec : ImageSpec)
    (verbose sum : Bool) (totalsize : Int) :
    (iinfo.print_info io filename spec verbose sum totalsize).1 =
      filename ++ " : " ++ fmt_4d spec.width ++ " x " ++ fmt_4d spec.height
        ++ (if spec.depth > 1 then " x " ++ fmt_4d spec.depth else "")
        ++ ", " ++ fmt_d spec.nchannels ++ " channel, " ++ io.typestring spec.format
        ++ (if spec.depth > 1 then " volume" else "")
        ++ (if sum then
              " (" ++ fmt_2f ((toFloat (io.image_bytes spec)).div_pow2 20) ++ " MB)"
            else "")
        ++ "\n"
        ++ (if verbose then
              "    channel list: " ++ iinfo.channel_loop spec spec.nchannels.toNat 0 ""
                ++ "\n" ++ iinfo.origin_block spec "" ++ iinfo.verbose_tail io spec ""
            else "") := by
  unfold iinfo.print_info
  cases verbose <;> cases sum <;> simp only [if_true, if_false, Bool.false_eq_true]
  · split_ifs <;> simp only [String.append_assoc, String.append_empty, String.empty_append]
  · split_ifs <;> simp only [String.append_assoc, String.append_empty, String.empty_append]
  · rw [iinfo.verbose_tail_append, iinfo.origin_block_append, iinfo.channel_loop_append]
    split_ifs <;> simp only [String.append_assoc, String.append_empty, String.empty_append]
  · rw [iinfo.verbose_tail_append, iinfo.origin_block_append, iinfo.channel_loop_append]
    split_ifs <;> simp only [String.append_assoc, String.append_empty, String.empty_append]

theorem iinfo.print_info_total (io : Imageio) (filename : String) (spec : ImageSpec)
    (verbose sum : Bool) (totalsize : Int) :
    (iinfo.print_info io filename spec verbose sum totalsize).2 =
      if sum then wrap64 (totalsize + io.image_bytes spec) else totalsize := by
  unfold iinfo.print_info
  cases verbose <;> cases sum <;> simp

/-- C8 (failing input): for the volume with origin x=1, y=2, z=3 the origin
line of `print_info` shows `z=1`, the value of `spec.x`, where the claim has
`spec.z` = 3; the line is followed by an empty line. -/
theorem iinfo.print_info_origin_z_shows_x :
    iinfo.origin_block { plainSpec 4 4 2 ["R"] with x := 1, y := 2, z := 3 } ""
      = "    origin: x=1, y=2, z=1\n\n" ∧
    (iinfo.print_info sampleLib "v.tif"
        { plainSpec 4 4 2 ["R"] with x := 1, y := 2, z := 3 } true false 0).1
      = "v.tif :    4 x    4 x    2, 1 channel, uint8 volume\n"
        ++ "    channel list: R\n"
        ++ "    origin: x=1, y=2, z=1\n\n"
        ++ "    linear color space\n" := by
  decide

/-! ### The channel list -/

theorem String.intercalate_go_append (s x y : String) (l : List String) :
    String.intercalate.go (x ++ y) s l = x ++ String.intercalate.go y s l := by
  induction l generalizing y with
  | nil => simp [String.intercalate.go]
  | cons c l ih =>
    simp only [String.intercalate.go]
    rw [← ih]
    simp only [String.append_assoc]

theorem String.intercalate_cons_cons (s a b : String) (l : List String) :
    String.intercalate s (a :: b :: l) = a ++ s ++ String.intercalate s (b :: l) := by
  simp only [String.intercalate, String.intercalate.go]
  rw [String.intercalate_go_append]

theorem String.intercalate_singleton (s a : String) : String.intercalate s [a] = a := by
  simp [String.intercalate, String.intercalate.go]

theorem iinfo.channel_loop_suffix (spec : ImageSpec) (suf : List String) :
    ∀ pre : List String, spec.channelnames = pre ++ suf →
      spec.nchannels = ((pre ++ suf).length : Int) →
      iinfo.channel_loop spec suf.length (pre.length : Int) ""
        = String.intercalate ", " suf := by
  induction suf with
  | nil => intro pre _ _; simp [iinfo.channel_loop, String.intercalate]
  | cons a rest ih =>
    intro pre hnames hn
    have hnext := ih (pre ++ [a]) (by simp [hnames]) (by simp [hn])
    have hlt : (pre.length : Int) < spec.nchannels := by
      rw [hn]; simp only [List.length_append, List.length_cons]; push_cast; omega
    have hget : spec.channelnames.getD (pre.length : Int).toNat "" = a := by
      rw [hnames, Int.toNat_natCast, List.getD_eq_getElem?_getD,
        List.getElem?_append_right (le_refl _)]
      simp
    simp only [List.length_cons, iinfo.channel_loop, hlt, if_true, hget]
    rw [iinfo.channel_loop_append]
    have hidx : (pre.length : Int) + 1 = ((pre ++ [a]).length : Int) := by simp
    rw [hidx, hnext]
    cases rest with
    | nil =>
      have hlast : (pre.length : Int) = spec.nchannels - 1 := by
        rw [hn]; simp
      simp only [hlast, if_true]
      simp [String.intercalate, String.intercalate.go]
    | cons b l =>
      have hnot : ¬ (pre.length : Int) = spec.nchannels - 1 := by
        rw [hn]; simp only [List.length_append, List.length_cons]; push_cast; omega
      simp only [hnot, if_false, String.empty_append]
      rw [String.intercalate_cons_cons]

theorem String.length_intercalate (s : String) (l : List String) :
    (String.intercalate s l).length
      = (l.map String.length).sum + s.length * (l.length - 1) := by
  induction l with
  | nil => simp [String.intercalate]
  | cons a l ih =>
    cases l with
    | nil => simp [String.intercalate_singleton]
    | cons b l =>
      rw [String.intercalate_cons_cons]
      simp only [String.length_append, ih, List.map_cons, List.sum_cons, List.length_cons]
      simp only [Nat.add_sub_cancel, Nat.mul_add, Nat.mul_one]
      omega

/-- C10: for every spec whose channel-name sequence has as many entries as its
channel count, the text `print_info` prints in verbose mode after
`channel list: ` is the channel names in stored order joined by `, `, with no
leading or trailing separator, followed by a newline: one separator fewer
than names (none for an empty list). -/
theorem iinfo.print_info_channel_list (io : Imageio) (filename : String) (spec : ImageSpec)
    (sum : Bool) (totalsize : Int)
    (hlen : (spec.channelnames.length : Int) = spec.nchannels) :
    (iinfo.print_info io filename spec true sum totalsize).1 =
      (iinfo.print_info io filename spec false sum totalsize).1
        ++ "    channel list: " ++ String.intercalate ", " spec.channelnames ++ "\n"
        ++ iinfo.origin_block spec "" ++ iinfo.verbose_tail io spec "" ∧
    iinfo.channel_loop spec spec.nchannels.toNat 0 ""
      = String.intercalate ", " spec.channelnames ∧
    (String.intercalate ", " spec.channelnames).length
      = (spec.channelnames.map String.length).sum + 2 * (spec.channelnames.length - 1) := by
  have hloop : iinfo.channel_loop spec spec.nchannels.toNat 0 ""
      = String.intercalate ", " spec.channelnames := by
    have h := iinfo.channel_loop_suffix spec spec.channelnames [] (by simp) (by simp [hlen])
    rw [← hlen]
    simpa using h
  refine ⟨?_, hloop, ?_⟩
  · rw [iinfo.print_info_text, iinfo.print_info_text, hloop]
    simp only [if_true, if_false, Bool.false_eq_true, String.append_assoc,
      String.append_empty]
  · rw [String.length_intercalate]
    rfl

/-- Witness of C10: the three channels R, G, B are listed as `R, G, B`. -/
theorem iinfo.print_info_channel_list_witness :
    String.intercalate ", " (plainSpec 64 64 1 ["R", "G", "B"]).channelnames = "R, G, B" ∧
    ((iinfo.print_info sampleLib "A.tif" (plainSpec 64 64 1 ["R", "G", "B"]) true false 0).1 =
      (iinfo.print_info sampleLib "A.tif" (plainSpec 64 64 1 ["R", "G", "B"]) false false 0).1
        ++ "    channel list: "
        ++ String.intercalate ", " (plainSpec 64 64 1 ["R", "G", "B"]).channelnames ++ "\n"
        ++ iinfo.origin_block (plainSpec 64 64 1 ["R", "G", "B"]) ""
        ++ iinfo.verbose_tail sampleLib (plainSpec 64 64 1 ["R", "G", "B"]) "" ∧
    iinfo.channel_loop (plainSpec 64 64 1 ["R", "G", "B"])
        (plainSpec 64 64 1 ["R", "G", "B"]).nchannels.toNat 0 ""
      = String.intercalate ", " (plainSpec 64 64 1 ["R", "G", "B"]).channelnames ∧
    (String.intercalate ", " (plainSpec 64 64 1 ["R", "G", "B"]).channelnames).length
      = ((plainSpec 64 64 1 ["R", "G", "B"]).channelnames.map String.length).sum
        + 2 * ((plainSpec 64 64 1 ["R", "G", "B"]).channelnames.length - 1)) :=
  ⟨by decide,
   iinfo.print_info_channel_list sampleLib "A.tif" (plainSpec 64 64 1 ["R", "G", "B"])
     false 0 (by decide)⟩

/-! ## Theorems: the batch loop and `main` -/

theorem String.foldl_append_eq (l : List String) (acc : String) :
    List.foldl (fun r s => r ++ s) acc l = acc ++ List.foldl (fun r s => r ++ s) "" l := by
  induction l generalizing acc with
  | nil => simp
  | cons a l ih =>
    simp only [List.foldl_cons]
    rw [ih (acc ++ a), ih ("" ++ a)]
    simp only [String.append_assoc, String.empty_append]

theorem String.join_cons (a : String) (l : List String) :
    String.join (a :: l) = a ++ String.join l := by
  simp only [String.join, List.foldl_cons]
  rw [String.foldl_append_eq]
  simp only [String.empty_append]

/-- The loop of `main`, in closed form: standard output grows by the texts of
`print_info` for the files that open, in order; the error stream grows by one
message for each other file; when summing is on `totalsize` takes up the
bytes of the files that open, one 64-bit addition each. -/
theorem iinfo.process_files_eq (io : Imageio) (files : String → iinfo.Probe)
    (verbose sum : Bool) (names : List String) (st : iinfo.Streams) :
    (iinfo.process_files io files verbose sum st names).stdout =
      st.stdout ++ String.join (names.filterMap fun s =>
        (iinfo.opened files s).map fun spec =>
          (iinfo.print_info io s spec verbose sum 0).1) ∧
    (iinfo.process_files io files verbose sum st names).stderr.length =
      st.stderr.length + (names.filter fun s => (iinfo.opened files s).isNone).length ∧
    (iinfo.process_files io files verbose sum st names).totalsize =
      (if sum then
        List.foldl (fun t x => wrap64 (t + x)) st.totalsize
          ((names.filterMap (iinfo.opened files)).map io.image_bytes)
      else st.totalsize) := by
  induction names generalizing st with
  | nil => cases sum <;> simp [iinfo.process_files, String.join]
  | cons s rest ih =>
    simp only [iinfo.process_files]
    obtain ⟨h1, h2, h3⟩ := ih (iinfo.process_file io files verbose sum st s)
    rw [h1, h2, h3]
    cases hf : files s with
    | no_plugin err =>
      simp [iinfo.process_file, iinfo.opened, hf]
      omega
    | open_fails err =>
      simp [iinfo.process_file, iinfo.opened, hf]
      omega
    | opens spec dec =>
      have htext : (iinfo.print_info io s spec verbose sum st.totalsize).1
          = (iinfo.print_info io s spec verbose sum 0).1 := by
        rw [iinfo.print_info_text, iinfo.print_info_text]
      simp only [iinfo.process_file, iinfo.opened, hf, List.filterMap_cons, Option.map_some',
        String.join_cons, htext, iinfo.print_info_total, List.filter_cons, Option.isNone_some,
        Bool.false_eq_true, if_false, List.map_cons, List.sum_cons, String.append_assoc]
      refine ⟨trivial, trivial, ?_⟩
      cases sum <;> simp

/-- C3: a failing file never aborts the batch.  For every list of file names
the text on standard output is the `print_info` texts of exactly the files for
which decoder creation and open both succeed, one per file in input order;
the error stream receives exactly one message per other file; and a failing
file `bad` between `pre` and `post` changes nothing but that one message: the
output and the total are those of the batch without it. -/
theorem iinfo.process_files_skips_failures (io : Imageio) (files : String → iinfo.Probe)
    (verbose sum : Bool) (names pre post : List String) (bad : String)
    (hbad : iinfo.opened files bad = none) :
    (iinfo.process_files io files verbose sum ⟨"", [], 0⟩ names).stdout =
      String.join (names.filterMap fun s =>
        (iinfo.opened files s).map fun spec =>
          (iinfo.print_info io s spec verbose sum 0).1) ∧
    (iinfo.process_files io files verbose sum ⟨"", [], 0⟩ names).stderr.length =
      (names.filter fun s => (iinfo.opened files s).isNone).length ∧
    (iinfo.process_files io files verbose sum ⟨"", [], 0⟩ (pre ++ bad :: post)).stdout =
      (iinfo.process_files io files verbose sum ⟨"", [], 0⟩ (pre ++ post)).stdout ∧
    (iinfo.process_files io files verbose sum ⟨"", [], 0⟩ (pre ++ bad :: post)).totalsize =
      (iinfo.process_files io files verbose sum ⟨"", [], 0⟩ (pre ++ post)).totalsize ∧
    (iinfo.process_files io files verbose sum ⟨"", [], 0⟩ (pre ++ bad :: post)).stderr.length =
      (iinfo.process_files io files verbose sum ⟨"", [], 0⟩ (pre ++ post)).stderr.length + 1 := by
  obtain ⟨a1, a2, _⟩ := iinfo.process_files_eq io files verbose sum names ⟨"", [], 0⟩
  obtain ⟨b1, b2, b3⟩ :=
    iinfo.process_files_eq io files verbose sum (pre ++ bad :: post) ⟨"", [], 0⟩
  obtain ⟨c1, c2, c3⟩ := iinfo.process_files_eq io files verbose sum (pre ++ post) ⟨"", [], 0⟩
  refine ⟨?_, ?_, ?_, ?_, ?_⟩
  · rw [a1]; simp only [String.empty_append]
  · rw [a2]; simp
  · rw [b1, c1]; simp [List.filterMap_append, hbad]
  · rw [b3, c3]; simp [List.filterMap_append, hbad]
  · rw [b2, c2]; simp [List.filter_append, hbad]; omega

/-- Witness of C3: the batch `A.tif, B.tif, C.tif`, where `B.tif` cannot be
opened. -/
theorem iinfo.process_files_skips_failures_witness :
    iinfo.opened scenarioFiles "B.tif" = none ∧
    (iinfo.process_files sampleLib scenarioFiles false false ⟨"", [], 0⟩
        ["A.tif", "B.tif", "C.tif"]).stdout
      = "A.tif :   64 x   64, 3 channel, uint8\nC.tif : 1024 x 1024, 1 channel, uint8\n" ∧
    ((iinfo.process_files sampleLib scenarioFiles false false ⟨"", [], 0⟩
        ["A.tif", "B.tif", "C.tif"]).stdout =
      String.join (["A.tif", "B.tif", "C.tif"].filterMap fun s =>
        (iinfo.opened scenarioFiles s).map fun spec =>
          (iinfo.print_info sampleLib s spec false false 0).1) ∧
    (iinfo.process_files sampleLib scenarioFiles false false ⟨"", [], 0⟩
        ["A.tif", "B.tif", "C.tif"]).stderr.length =
      (["A.tif", "B.tif", "C.tif"].filter fun s =>
        (iinfo.opened scenarioFiles s).isNone).length ∧
    (iinfo.process_files sampleLib scenarioFiles false false ⟨"", [], 0⟩
        (["A.tif"] ++ "B.tif" :: ["C.tif"])).stdout =
      (iinfo.process_files sampleLib scenarioFiles false false ⟨"", [], 0⟩
        (["A.tif"] ++ ["C.tif"])).stdout ∧
    (iinfo.process_files sampleLib scenarioFiles false false ⟨"", [], 0⟩
        (["A.tif"] ++ "B.tif" :: ["C.tif"])).totalsize =
      (iinfo.process_files sampleLib scenarioFiles false false ⟨"", [], 0⟩
        (["A.tif"] ++ ["C.tif"])).totalsize ∧
    (iinfo.process_files sampleLib scenarioFiles false false ⟨"", [], 0⟩
        (["A.tif"] ++ "B.tif" :: ["C.tif"])).stderr.length =
      (iinfo.process_files sampleLib scenarioFiles false false ⟨"", [], 0⟩
        (["A.tif"] ++ ["C.tif"])).stderr.length + 1) :=
  ⟨by decide, by decide,
   iinfo.process_files_skips_failures sampleLib scenarioFiles false false
     ["A.tif", "B.tif", "C.tif"] ["A.tif"] ["C.tif"] "B.tif" (by decide)⟩

/-- Counterexample to C4 as stated: in the three-file scenario run with `-s`,
`C.tif` (opens, pixels do not decode) gets an info line and no error line, the
error stream holds the one message for `B.tif`, and the total is the bytes of
`A.tif` plus those of `C.tif`, not the bytes of `A.tif` alone. -/
theorem iinfo.scenario_total_counts_undecodable_file :
    (iinfo.main sampleLib scenarioFiles scenarioArgs).streams.stdout
      = "A.tif :   64 x   64, 3 channel, uint8 (0.01 MB)\n"
        ++ "C.tif : 1024 x 1024, 1 channel, uint8 (1.00 MB)\n"
        ++ "Total size: 1.01 MB\n" ∧
    (iinfo.main sampleLib scenarioFiles scenarioArgs).streams.stderr
      = ["iinfo: Could not open \"B.tif\" : No such file or directory\n"] ∧
    sampleLib.image_bytes (plainSpec 64 64 1 ["R", "G", "B"]) = 12288 ∧
    (iinfo.main sampleLib scenarioFiles scenarioArgs).streams.totalsize = 12288 + 1048576 ∧
    (iinfo.main sampleLib scenarioFiles scenarioArgs).streams.totalsize
      ≠ sampleLib.image_bytes (plainSpec 64 64 1 ["R", "G", "B"]) := by
  decide

theorem iinfo.main_normal_run (io : Imageio) (files : String → iinfo.Probe) (p : iinfo.Parsed)
    (hparse : 0 ≤ p.status) (hhelp : p.help = false) :
    iinfo.main io files p =
      { streams :=
          if p.sum = true then
            { iinfo.process_files io files p.verbose p.sum ⟨"", [], 0⟩ p.filenames with
              stdout :=
                (iinfo.process_files io files p.verbose p.sum ⟨"", [], 0⟩ p.filenames).stdout
                ++ iinfo.total_line
                  (iinfo.process_files io files p.verbose p.sum ⟨"", [], 0⟩ p.filenames).totalsize }
          else iinfo.process_files io files p.verbose p.sum ⟨"", [], 0⟩ p.filenames,
        status := 0 } := by
  unfold iinfo.main
  simp [not_lt.mpr hparse, hhelp]

/-- C4 (amended): with `-s` the total is the sum of `image_bytes` over exactly
the files for which decoder creation and open succeed, whether or not their
pixels would decode, as long as that sum is a `long long`: standard output is
the info lines of those files followed by the total-size line for that sum,
and the error stream holds one message for each file that does not open. -/
theorem iinfo.main_sum_counts_opened_files (io : Imageio) (files : String → iinfo.Probe)
    (p : iinfo.Parsed) (hparse : 0 ≤ p.status) (hhelp : p.help = false)
    (hsum : p.sum = true)
    (hlo : LLONG_MIN ≤ ((p.filenames.filterMap (iinfo.opened files)).map io.image_bytes).sum)
    (hhi : ((p.filenames.filterMap (iinfo.opened files)).map io.image_bytes).sum ≤ LLONG_MAX) :
    (iinfo.main io files p).streams.totalsize =
      ((p.filenames.filterMap (iinfo.opened files)).map io.image_bytes).sum ∧
    (iinfo.main io files p).streams.stdout =
      String.join (p.filenames.filterMap fun s =>
        (iinfo.opened files s).map fun spec =>
          (iinfo.print_info io s spec p.verbose true 0).1)
      ++ iinfo.total_line
        ((p.filenames.filterMap (iinfo.opened files)).map io.image_bytes).sum ∧
    (iinfo.main io files p).streams.stderr.length =
      (p.filenames.filter fun s => (iinfo.opened files s).isNone).length := by
  obtain ⟨h1, h2, h3⟩ :=
    iinfo.process_files_eq io files p.verbose p.sum p.filenames ⟨"", [], 0⟩
  rw [iinfo.main_normal_run io files p hparse hhelp]
  simp only [hsum, if_true] at h1 h2 h3 ⊢
  rw [wrap64_foldl_zero, wrap64_of_range _ hlo hhi] at h3
  refine ⟨?_, ?_, ?_⟩
  · rw [h3]
  · rw [h1, h3]; simp only [String.empty_append]
  · rw [h2]; simp

/-- Witness of C4 (amended): the three-file scenario. -/
theorem iinfo.main_sum_counts_opened_files_witness :
    ((scenarioArgs.filenames.filterMap (iinfo.opened scenarioFiles)).map
        sampleLib.image_bytes).sum = 12288 + 1048576 ∧
    ((iinfo.main sampleLib scenarioFiles scenarioArgs).streams.totalsize =
      ((scenarioArgs.filenames.filterMap (iinfo.opened scenarioFiles)).map
        sampleLib.image_bytes).sum ∧
    (iinfo.main sampleLib scenarioFiles scenarioArgs).streams.stdout =
      String.join (scenarioArgs.filenames.filterMap fun s =>
        (iinfo.opened scenarioFiles s).map fun spec =>
          (iinfo.print_info sampleLib s spec scenarioArgs.verbose true 0).1)
      ++ iinfo.total_line
        ((scenarioArgs.filenames.filterMap (iinfo.opened scenarioFiles)).map
          sampleLib.image_bytes).sum ∧
    (iinfo.main sampleLib scenarioFiles scenarioArgs).streams.stderr.length =
      (scenarioArgs.filenames.filter fun s =>
        (iinfo.opened scenarioFiles s).isNone).length) :=
  ⟨by decide,
   iinfo.main_sum_counts_opened_files sampleLib scenarioFiles scenarioArgs
     (by decide) (by decide) (by decide) (by decide) (by decide)⟩

/-- Counterexample to C5 as stated: a run whose arguments parse (status 0) and
contain `--help` exits with the failure status. -/
theorem iinfo.help_exits_with_failure :
    (0 : Int) ≤ ({ scenarioArgs with help := true } : iinfo.Parsed).status ∧
    (iinfo.main sampleLib scenarioFiles { scenarioArgs with help := true }).status
      = iinfo.EXIT_FAILURE ∧
    (iinfo.main sampleLib scenarioFiles { scenarioArgs with help := true }).status ≠ 0 := by
  decide

/-- C5 (amended): the exit status is 0 exactly when argument parsing succeeds
and `--help` is not given, for every list of files (whether or not they open)
and every value of `-v` and `-s`; a parse failure and `--help` both exit with
the failure status. -/
theorem iinfo.main_exit_status (io : Imageio) (files : String → iinfo.Probe)
    (p : iinfo.Parsed) :
    ((iinfo.main io files p).status = 0 ↔ (0 ≤ p.status ∧ p.help = false)) ∧
    ((iinfo.main io files p).status = iinfo.EXIT_FAILURE ↔
      (p.status < 0 ∨ p.help = true)) := by
  unfold iinfo.main
  by_cases hparse : p.status < 0
  · simp [hparse, iinfo.EXIT_FAILURE]
  · cases hhelp : p.help
    · simp [hparse, iinfo.EXIT_FAILURE, not_lt.mp hparse]
    · simp [hparse, iinfo.EXIT_FAILURE, not_lt.mp hparse]

/-- Counterexample to C6 as stated: a total of exactly 2^30 bytes reaches the
1024 MB threshold, yet the total-size line is in MB (one byte more gives GB);
and for the total 9007199270847119, above 2^53, the line shows 8388608.02 GB
where the exact quotient n / 1024^3 renders as 8388608.01. -/
theorem iinfo.total_line_at_threshold_is_MB :
    iinfo.total_line (2 ^ 30) = "Total size: 1024.00 MB\n" ∧
    iinfo.total_line (2 ^ 30 + 1) = "Total size: 1.00 GB\n" ∧
    iinfo.total_line 9007199270847119 = "Total size: 8388608.02 GB\n" ∧
    fmt_2f { num := 9007199270847119, shift := 30 } = "8388608.01" := by
  decide

/-- C6 (amended): with `-s` the total-size line is in GB exactly when the total
`n` exceeds 2^30 bytes (`n / 1024^2 > 1024`) and in MB exactly when
`n <= 2^30`; the value rendered is `double(n) / 1024^3` in GB and
`double(n) / 1024^2` in MB, where `double(n)` is `n` converted to `double`,
which is `n` itself for every total below 2^53.  Without `-s` a normal run
prints no total-size line: its output is that of the loop over the files. -/
theorem iinfo.total_line_unit (io : Imageio) (files : String → iinfo.Probe)
    (p : iinfo.Parsed) (n : Int) :
    (iinfo.total_line n =
      if (2 : Int) ^ 30 < n then
        "Total size: " ++ fmt_2f (((toDouble n).div_pow2 20).div_pow2 10) ++ " GB\n"
      else "Total size: " ++ fmt_2f ((toDouble n).div_pow2 20) ++ " MB\n") ∧
    ((((toDouble n).div_pow2 20).div_pow2 10).toRat = (toDouble n).toRat / 1024 ^ 3 ∧
      ((toDouble n).div_pow2 20).toRat = (toDouble n).toRat / 1024 ^ 2) ∧
    (n.natAbs < 2 ^ 53 → (toDouble n).toRat = (n : ℚ)) ∧
    (0 ≤ p.status → p.help = false →
      (iinfo.main io files p).streams.stdout =
        (iinfo.process_files io files p.verbose p.sum ⟨"", [], 0⟩ p.filenames).stdout
        ++ (if p.sum = true then
              iinfo.total_line
                (iinfo.process_files io files p.verbose p.sum ⟨"", [], 0⟩
                  p.filenames).totalsize
            else "")) := by
  refine ⟨iinfo.total_line_eq n, ?_, ?_, ?_⟩
  · simp only [Binary.toRat, Binary.div_pow2, toDouble]
    norm_num
  · intro hsmall
    simp only [Binary.toRat, toDouble, roundToSignificand_of_lt 53 n hsmall]
    norm_num
  · intro hparse hhelp
    rw [iinfo.main_normal_run io files p hparse hhelp]
    cases p.sum <;> simp

/-- Witness of C6 (amended): a total of 3 * 2^30 bytes is below 2^53 and is
shown as 3.00 GB, and the three-file scenario run without `-s` prints no
total-size line. -/
theorem iinfo.total_line_unit_witness :
    iinfo.total_line (3 * 2 ^ 30) = "Total size: 3.00 GB\n" ∧
    (iinfo.main sampleLib scenarioFiles { scenarioArgs with sum := false }).streams.stdout
      = "A.tif :   64 x   64, 3 channel, uint8\nC.tif : 1024 x 1024, 1 channel, uint8\n" ∧
    (toDouble (3 * 2 ^ 30)).toRat = ((3 * 2 ^ 30 : Int) : ℚ) ∧
    (iinfo.main sampleLib scenarioFiles { scenarioArgs with sum := false }).streams.stdout =
      (iinfo.process_files sampleLib scenarioFiles
          ({ scenarioArgs with sum := false } : iinfo.Parsed).verbose
          ({ scenarioArgs with sum := false } : iinfo.Parsed).sum ⟨"", [], 0⟩
          ({ scenarioArgs with sum := false } : iinfo.Parsed).filenames).stdout
        ++ (if ({ scenarioArgs with sum := false } : iinfo.Parsed).sum = true then
              iinfo.total_line
                (iinfo.process_files sampleLib scenarioFiles
                  ({ scenarioArgs with sum := false } : iinfo.Parsed).verbose
                  ({ scenarioArgs with sum := false } : iinfo.Parsed).sum ⟨"", [], 0⟩
                  ({ scenarioArgs with sum := false } : iinfo.Parsed).filenames).totalsize
            else "") :=
  ⟨by decide, by decide,
   (iinfo.total_line_unit sampleLib scenarioFiles { scenarioArgs with sum := false }
      (3 * 2 ^ 30)).2.2.1 (by decide),
   (iinfo.total_line_unit sampleLib scenarioFiles { scenarioArgs with sum := false }
      (3 * 2 ^ 30)).2.2.2 (by decide) (by decide)⟩
